import Mathlib

/-!
Verification of the twitch auth-flow server (src/Server.mts).

The server keeps a mutable map of pending auth-state nonces, redirects the
browser to the external authorization endpoint, validates the callback,
exchanges the code for an access token via the external SDK, caches tokens
as one JSON file per user under a cache directory, and reloads them at
bootstrap. Below is a shallow embedding of that logic:

* pure data (config, scopes, timeout constant) is copied verbatim;
* the nonce map `twitchAuthState` becomes a list of pending keys with the
  three operations the source performs on it (lookup, insert, delete) and
  the timeout callback;
* the file system becomes an association list from path to raw file
  content, where raw content is either a JSON value (what JSON.parse would
  yield) or unparseable text (on which JSON.parse throws);
* the external SDK calls (addUserForCode, getAccessTokenForUser,
  getUserById) become an oracle record, with Except modelling a thrown
  rejection;
* the two express route handlers and the bootstrap loop become functions
  from their inputs and the oracle to an outcome holding the HTTP response,
  the new nonce map, the new file system and an ordered event trace.
  A rejection escaping the handler (the source has no try/catch) is the
  `threw` flag with no response.  The event loop is run-to-completion: an
  async call made without `await` emits its start event in place but its
  completion event is delivered only after the current synchronous segment
  of the handler finishes, which is how the trace of the success path is
  assembled.
-/

namespace GodotTwitchBridge

/-- Server configuration, from the ServerConfig type of src/Server.mts. -/
structure ServerConfig where
  clientId : String
  clientSecret : String
  botUser : String
  botChannel : String
  port : Nat
  hostName : String
deriving DecidableEq, Repr

/-- How long a twitch auth request is valid for (milliseconds), copied from
Server.DEFAULT_TWITCH_AUTH_TIMEOUT. -/
def DEFAULT_TWITCH_AUTH_TIMEOUT : Nat := 1000 * 60 * 5

/-- The scopes to request from twitch, copied from Server.twitchScopes. -/
def twitchScopes : List String :=
  ["chat:read",
   "chat:edit",
   "channel:read:redemptions",
   "channel:manage:redemptions",
   "moderator:read:followers"]

/-- The fully qualified hostname as built in the constructor:
http plus hostName plus the port when the port is truthy (nonzero). -/
def fullyQualifiedHostName (hostName : String) (port : Nat) : String :=
  "http://" ++ hostName ++ (if port ≠ 0 then ":" ++ toString port else "")

/-! The twitchAuthState map.  In the source it is a JS object whose keys are
the pending state nonces (the values are the timeout handles, used only for
truthiness); we keep the list of pending keys. -/

/-- The set of pending auth-state nonces. -/
abbrev AuthState := List String

/-- Truthiness test of twitchAuthState lookup at a key. -/
def authStateHas (st : AuthState) (s : String) : Bool := st.contains s

/-- Adding a key, as in the redirect route. -/
def authStateAdd (st : AuthState) (s : String) : AuthState := s :: st

/-- Deleting a key, the JS delete operator. -/
def authStateDel (st : AuthState) (s : String) : AuthState :=
  st.filter (fun k => k ≠ s)

/-- The scheduled timeout callback registered by the redirect route:
if the key is still present it is deleted, otherwise nothing happens. -/
def expireTwitchAuthState (st : AuthState) (s : String) : AuthState :=
  if authStateHas st s then authStateDel st s else st

/-! JSON values and the access-token credential. -/

/-- A JSON value, the result of a successful JSON.parse. -/
inductive Json where
  | null
  | bool (b : Bool)
  | num (n : Int)
  | str (s : String)
  | arr (elems : List Json)
  | obj (fields : List (String × Json))

/-- JS truthiness of a parsed JSON value (the bang test in the bootstrap
loop accepts any value other than null, false, 0 and the empty string). -/
def jsonTruthy : Json → Bool
  | Json.null => false
  | Json.bool b => b
  | Json.num n => n != 0
  | Json.str s => s != ""
  | Json.arr _ => true
  | Json.obj _ => true

/-- An access token bundle as serialized by the SDK (AccessToken fields). -/
structure AccessToken where
  accessToken : String
  refreshToken : Option String
  scope : List String
  expiresIn : Option Int
  obtainmentTimestamp : Int
deriving DecidableEq, Repr

/-- JSON.stringify of an access token, as a JSON tree. -/
def encodeAccessToken (t : AccessToken) : Json :=
  Json.obj
    [("accessToken", Json.str t.accessToken),
     ("refreshToken",
       match t.refreshToken with
       | none => Json.null
       | some r => Json.str r),
     ("scope", Json.arr (t.scope.map Json.str)),
     ("expiresIn",
       match t.expiresIn with
       | none => Json.null
       | some n => Json.num n),
     ("obtainmentTimestamp", Json.num t.obtainmentTimestamp)]

/-- Looks a key up in a JSON object field list. -/
def jsonLookup (fields : List (String × Json)) (k : String) : Option Json :=
  (fields.find? (fun f => f.1 == k)).map (fun f => f.2)

/-- Decodes a JSON string. -/
def decodeStr : Json → Option String
  | Json.str s => some s
  | _ => none

/-- Decodes a list of JSON strings. -/
def decodeStrs : List Json → Option (List String)
  | [] => some []
  | j :: js =>
    match decodeStr j, decodeStrs js with
    | some s, some ss => some (s :: ss)
    | _, _ => none

/-- Decodes a nullable JSON string. -/
def decodeOptStr : Json → Option (Option String)
  | Json.null => some none
  | Json.str s => some (some s)
  | _ => none

/-- Decodes a nullable JSON number. -/
def decodeOptNum : Json → Option (Option Int)
  | Json.null => some none
  | Json.num n => some (some n)
  | _ => none

/-- Decodes a JSON number. -/
def decodeNum : Json → Option Int
  | Json.num n => some n
  | _ => none

/-- Reading an access token back from its JSON form. -/
def decodeAccessToken : Json → Option AccessToken
  | Json.obj fields => do
    let a ← jsonLookup fields "accessToken" >>= decodeStr
    let r ← jsonLookup fields "refreshToken" >>= decodeOptStr
    let sc ←
      match jsonLookup fields "scope" with
      | some (Json.arr js) => decodeStrs js
      | _ => none
    let e ← jsonLookup fields "expiresIn" >>= decodeOptNum
    let o ← jsonLookup fields "obtainmentTimestamp" >>= decodeNum
    pure ⟨a, r, sc, e, o⟩
  | _ => none

/-- Raw file content: either text whose JSON.parse yields a value, or text
on which JSON.parse throws. -/
inductive RawContent where
  | invalid
  | val (j : Json)

/-- JSON.parse on raw file content. -/
def jsonParse : RawContent → Except Unit Json
  | RawContent.invalid => Except.error ()
  | RawContent.val j => Except.ok j

/-! The file system, an association list from path to raw content.
fs.writeFile overwrites, fs.rm (without force) throws when absent. -/

/-- A file system state. -/
abbrev FileSystem := List (String × RawContent)

/-- Reading a file if it exists. -/
def fsRead (fs : FileSystem) (p : String) : Option RawContent :=
  (fs.find? (fun e => e.1 == p)).map (fun e => e.2)

/-- fs.writeFile: replaces any entry at the path. -/
def fsWrite (fs : FileSystem) (p : String) (v : RawContent) : FileSystem :=
  fs.filter (fun e => e.1 != p) ++ [(p, v)]

/-- fs.rm without the force option: throws ENOENT when the path is absent. -/
def fsRm (fs : FileSystem) (p : String) : Except Unit FileSystem :=
  if fs.any (fun e => e.1 == p) then
    Except.ok (fs.filter (fun e => e.1 != p))
  else Except.error ()

/-- The cache file name for a user id, the template twitch.userId.json. -/
def cacheFileName (userId : String) : String := "twitch." ++ userId ++ ".json"

/-- The cache file path for a user id, under the cache directory.  The
working-directory part of path.join is a fixed common part of every path
and is left out. -/
def cacheFilePath (userId : String) : String := "_cache/" ++ cacheFileName userId

/-- Server.cacheTwitchAccessToken: serialize the token with JSON.stringify
and write it to the cache file of the user. -/
def cacheTwitchAccessToken (fs : FileSystem) (userId : String) (tok : AccessToken) :
    FileSystem :=
  fsWrite fs (cacheFilePath userId) (RawContent.val (encodeAccessToken tok))

/-- Server.uncacheTwitchAccessToken: fs.rm of the cache file of the user. -/
def uncacheTwitchAccessToken (fs : FileSystem) (userId : String) :
    Except Unit FileSystem :=
  fsRm fs (cacheFilePath userId)

/-- Loading one cached credential, composed from the read arm of the
bootstrap loop specialized to one user: read the cache file, JSON.parse it,
and interpret the value as a credential; any failure is absence. -/
def loadCachedToken (fs : FileSystem) (userId : String) : Option AccessToken :=
  match fsRead fs (cacheFilePath userId) with
  | none => none
  | some raw =>
    match jsonParse raw with
    | Except.error _ => none
    | Except.ok j => decodeAccessToken j

/-! The external SDK collaborators and the observable side effects. -/

/-- The external SDK calls made by the server, as an oracle.  addUserForCode
may throw (the transport/protocol error of the exchange); the other two
resolve to null on failure, which is what the source tests for. -/
structure TwitchOracle where
  addUserForCode : String → Except Unit String
  getAccessTokenForUser : String → Option AccessToken
  getUserById : String → Option String

/-- An observable side effect or call, in the order it happens. -/
inductive Event where
  | exchangeCall (code : String)
  | getTokenCall (userId : String)
  | getUserCall (userId : String)
  | writeStart (userId : String)
  | writeComplete (userId : String)
  | createBotBegin (userName : String)
  | responseSent (status : Nat) (body : String)
  | uncacheCall (userId : String)
  | addUserCred (userId : String)
  | logError (userId : String)
deriving DecidableEq, Repr

/-- JS truthiness of an optional query parameter (undefined and the empty
string are falsy). -/
def paramTruthy : Option String → Bool
  | none => false
  | some s => s != ""

/-! The redirect route. -/

/-- The authorization URL as the URL object holds it: a base address plus
an ordered list of search parameters. -/
structure AuthUrl where
  base : String
  params : List (String × String)
deriving DecidableEq, Repr

/-- Server.routeRedirectTwitchAuth builds this URL from the config and the
fresh state nonce. -/
def buildAuthorizeUrl (cfg : ServerConfig) (state : String) : AuthUrl :=
  { base := "https://id.twitch.tv/oauth2/authorize",
    params :=
      [("client_id", cfg.clientId),
       ("redirect_uri",
         fullyQualifiedHostName cfg.hostName cfg.port ++ "/twitch/auth-callback"),
       ("response_type", "code"),
       ("scope", String.intercalate " " twitchScopes),
       ("state", state)] }

/-- The outcome of the redirect route: the response status, the Location
header, the new nonce map, and the one-shot expiry timer registered for the
nonce (key and delay in milliseconds). -/
structure RedirectOutcome where
  status : Nat
  location : AuthUrl
  newState : AuthState
  scheduledExpiry : String × Nat
deriving DecidableEq, Repr

/-- Server.routeRedirectTwitchAuth: store the fresh nonce (the randomness
of crypto.randomBytes is the nonce parameter), schedule its expiry, build
the authorization URL and answer 302 with it in the Location header. -/
def routeRedirectTwitchAuth (cfg : ServerConfig) (nonce : String)
    (st : AuthState) : RedirectOutcome :=
  { status := 302,
    location := buildAuthorizeUrl cfg nonce,
    newState := authStateAdd st nonce,
    scheduledExpiry := (nonce, DEFAULT_TWITCH_AUTH_TIMEOUT) }

/-! The callback route. -/

/-- The outcome of the callback route.  threw means a rejection escaped the
handler (the source has no try/catch), in which case no response is sent.
events is the run-to-completion trace: the write started by the unawaited
cacheTwitchAccessToken call completes only after the synchronous segment
of the handler has finished. -/
structure CallbackOutcome where
  threw : Bool
  response : Option (Nat × String)
  newState : AuthState
  fs : FileSystem
  events : List Event

/-- Server.routeTwitchAuthCallback.  Checks the request (code and state
present and the state pending), deletes the nonce, exchanges the code,
fetches the token and the user, caches the token (without awaiting the
write), creates the bot when the user is the configured bot user, and
answers. -/
def routeTwitchAuthCallback (cfg : ServerConfig) (oracle : TwitchOracle)
    (st : AuthState) (fs : FileSystem)
    (code state : Option String) : CallbackOutcome :=
  if !paramTruthy code || !paramTruthy state || !authStateHas st (state.getD "") then
    { threw := false, response := some (400, "Invalid request."),
      newState := st, fs := fs, events := [] }
  else
    let c := code.getD ""
    let s := state.getD ""
    let st1 := authStateDel st s
    match oracle.addUserForCode c with
    | Except.error _ =>
      { threw := true, response := none, newState := st1, fs := fs,
        events := [Event.exchangeCall c] }
    | Except.ok userId =>
      match oracle.getAccessTokenForUser userId with
      | none =>
        { threw := false,
          response := some (500, "Failed to get access token."),
          newState := st1, fs := fs,
          events := [Event.exchangeCall c, Event.getTokenCall userId,
                     Event.responseSent 500 "Failed to get access token."] }
      | some tok =>
        match oracle.getUserById userId with
        | none =>
          { threw := false, response := some (500, "Failed to load user."),
            newState := st1, fs := fs,
            events := [Event.exchangeCall c, Event.getTokenCall userId,
                       Event.getUserCall userId,
                       Event.responseSent 500 "Failed to load user."] }
        | some userName =>
          let fs1 := cacheTwitchAccessToken fs userId tok
          let body := "welcome " ++ userName ++ "!"
          { threw := false, response := some (200, body),
            newState := st1, fs := fs1,
            events :=
              [Event.exchangeCall c, Event.getTokenCall userId,
               Event.getUserCall userId, Event.writeStart userId]
              ++ (if userName == cfg.botUser
                  then [Event.createBotBegin userName] else [])
              ++ [Event.responseSent 200 body, Event.writeComplete userId] }

/-! The bootstrap loop. -/

/-- JS String.prototype.startsWith, at the character level. -/
def startsWithChars : List Char → List Char → Bool
  | _, [] => true
  | [], _ :: _ => false
  | c :: cs, p :: ps => c == p && startsWithChars cs ps

/-- JS String.prototype.startsWith on strings. -/
def strStartsWith (s pre : String) : Bool := startsWithChars s.data pre.data

/-- JS String.prototype.split with a one-character dot separator, at the
character level. -/
def splitDot : List Char → List (List Char)
  | [] => [[]]
  | c :: cs =>
    let r := splitDot cs
    if c = '.' then [] :: r
    else (c :: r.headD []) :: r.tail

/-- The user id the bootstrap loop derives from a cache file name:
fileName.split(".")[1]. -/
def extractUserId (fileName : String) : String :=
  String.mk ((splitDot fileName.data).getD 1 [])

/-- One iteration of the bootstrap loop of
Server.loadCachedTwitchAccessTokens, on one directory entry.  A file
without the twitch. name part in front is skipped; JSON.parse throwing
aborts the whole load (there is no try/catch); a falsy parse result makes
the loop remove the file (unawaited) and continue; otherwise the credential
is re-registered, the user is looked up (a failed lookup is logged and
skipped), and the bot is created for the configured bot user. -/
def loadOneCachedFile (cfg : ServerConfig) (oracle : TwitchOracle)
    (f : String × RawContent) : Except Unit (List Event) :=
  if strStartsWith f.1 "twitch." then
    let userId := extractUserId f.1
    match jsonParse f.2 with
    | Except.error _ => Except.error ()
    | Except.ok j =>
      if jsonTruthy j then
        match oracle.getUserById userId with
        | none =>
          Except.ok [Event.addUserCred userId, Event.getUserCall userId,
                     Event.logError userId]
        | some userName =>
          Except.ok
            ([Event.addUserCred userId, Event.getUserCall userId]
             ++ (if userName == cfg.botUser
                 then [Event.createBotBegin userName] else []))
      else Except.ok [Event.uncacheCall userId]
  else Except.ok []

/-- Server.loadCachedTwitchAccessTokens: iterate the directory listing;
a throw from an iteration aborts the remaining entries. -/
def loadCachedTwitchAccessTokens (cfg : ServerConfig) (oracle : TwitchOracle) :
    List (String × RawContent) → Except Unit (List Event)
  | [] => Except.ok []
  | f :: rest => do
    let evs ← loadOneCachedFile cfg oracle f
    let more ← loadCachedTwitchAccessTokens cfg oracle rest
    pure (evs ++ more)

/-! Concrete sample inputs, used to evaluate the theorems below. -/

/-- A sample access token. -/
def demoToken : AccessToken :=
  { accessToken := "at", refreshToken := some "rt", scope := ["chat:read"],
    expiresIn := some 3600, obtainmentTimestamp := 1700000000 }

/-- A sample server config matching the sample config of the repository. -/
def demoCfg : ServerConfig :=
  { clientId := "cid", clientSecret := "sec", botUser := "papakumo",
    botChannel := "papakumo", port := 13371, hostName := "localhost" }

/-- An oracle for which every external call succeeds. -/
def demoOracle : TwitchOracle :=
  { addUserForCode := fun _ => Except.ok "42",
    getAccessTokenForUser := fun _ => some demoToken,
    getUserById := fun _ => some "papakumo" }

/-- An oracle whose code exchange throws. -/
def throwOracle : TwitchOracle :=
  { addUserForCode := fun _ => Except.error (),
    getAccessTokenForUser := fun _ => some demoToken,
    getUserById := fun _ => some "papakumo" }

/-- An oracle for which no access token is available after the exchange. -/
def noTokenOracle : TwitchOracle :=
  { addUserForCode := fun _ => Except.ok "42",
    getAccessTokenForUser := fun _ => none,
    getUserById := fun _ => some "papakumo" }

/-- An oracle for which the user lookup fails. -/
def noUserOracle : TwitchOracle :=
  { addUserForCode := fun _ => Except.ok "42",
    getAccessTokenForUser := fun _ => some demoToken,
    getUserById := fun _ => none }

theorem authStateHas_true_iff (st : AuthState) (s : String) :
    authStateHas st s = true ↔ s ∈ st := List.elem_iff

theorem authStateHas_false_iff (st : AuthState) (s : String) :
    authStateHas st s = false ↔ s ∉ st := by
  rw [← Bool.not_eq_true, not_iff_not]
  exact authStateHas_true_iff st s

theorem authStateHas_del_self (st : AuthState) (s : String) :
    authStateHas (authStateDel st s) s = false := by
  rw [authStateHas_false_iff]
  intro hmem
  rcases List.mem_filter.mp hmem with ⟨-, hval⟩
  simp at hval

theorem authStateDel_of_not_has (st : AuthState) (s : String)
    (h : authStateHas st s = false) : authStateDel st s = st := by
  rw [authStateHas_false_iff] at h
  apply List.filter_eq_self.mpr
  intro a ha
  simp only [decide_eq_true_eq]
  intro heq
  exact h (heq ▸ ha)

theorem authStateDel_preserves_not_has (st : AuthState) (s t : String)
    (h : authStateHas st s = false) :
    authStateHas (authStateDel st t) s = false := by
  rw [authStateHas_false_iff] at *
  intro hmem
  exact h (List.mem_filter.mp hmem).1

theorem callback_guard_false (c s : String) (st : AuthState)
    (hc : c ≠ "") (hs : s ≠ "") (hpend : authStateHas st s = true) :
    (!paramTruthy (some c) || !paramTruthy (some s)
      || !authStateHas st ((some s).getD "")) = false := by
  have hc2 : (c != "") = true := bne_iff_ne.mpr hc
  have hs2 : (s != "") = true := bne_iff_ne.mpr hs
  simp [paramTruthy, hc2, hs2, hpend]

theorem callback_invalid (cfg : ServerConfig) (oracle : TwitchOracle)
    (st : AuthState) (fs : FileSystem) (code state : Option String)
    (h : paramTruthy code = false ∨ paramTruthy state = false
      ∨ authStateHas st (state.getD "") = false) :
    routeTwitchAuthCallback cfg oracle st fs code state =
      { threw := false, response := some (400, "Invalid request."),
        newState := st, fs := fs, events := [] } := by
  have hguard : (!paramTruthy code || !paramTruthy state
      || !authStateHas st (state.getD "")) = true := by
    rcases h with h | h | h <;> simp [h]
  unfold routeTwitchAuthCallback
  simp [hguard]

theorem callback_throw (cfg : ServerConfig) (oracle : TwitchOracle)
    (st : AuthState) (fs : FileSystem) (c s : String)
    (hc : c ≠ "") (hs : s ≠ "") (hpend : authStateHas st s = true)
    (hx : oracle.addUserForCode c = Except.error ()) :
    routeTwitchAuthCallback cfg oracle st fs (some c) (some s) =
      { threw := true, response := none, newState := authStateDel st s,
        fs := fs, events := [Event.exchangeCall c] } := by
  have hguard := callback_guard_false c s st hc hs hpend
  unfold routeTwitchAuthCallback
  rw [hguard]
  simp [hx]

theorem callback_no_token (cfg : ServerConfig) (oracle : TwitchOracle)
    (st : AuthState) (fs : FileSystem) (c s userId : String)
    (hc : c ≠ "") (hs : s ≠ "") (hpend : authStateHas st s = true)
    (hx : oracle.addUserForCode c = Except.ok userId)
    (ht : oracle.getAccessTokenForUser userId = none) :
    routeTwitchAuthCallback cfg oracle st fs (some c) (some s) =
      { threw := false, response := some (500, "Failed to get access token."),
        newState := authStateDel st s, fs := fs,
        events := [Event.exchangeCall c, Event.getTokenCall userId,
                   Event.responseSent 500 "Failed to get access token."] } := by
  have hguard := callback_guard_false c s st hc hs hpend
  unfold routeTwitchAuthCallback
  rw [hguard]
  simp [hx, ht]

theorem callback_no_user (cfg : ServerConfig) (oracle : TwitchOracle)
    (st : AuthState) (fs : FileSystem) (c s userId : String) (tok : AccessToken)
    (hc : c ≠ "") (hs : s ≠ "") (hpend : authStateHas st s = true)
    (hx : oracle.addUserForCode c = Except.ok userId)
    (ht : oracle.getAccessTokenForUser userId = some tok)
    (hu : oracle.getUserById userId = none) :
    routeTwitchAuthCallback cfg oracle st fs (some c) (some s) =
      { threw := false, response := some (500, "Failed to load user."),
        newState := authStateDel st s, fs := fs,
        events := [Event.exchangeCall c, Event.getTokenCall userId,
                   Event.getUserCall userId,
                   Event.responseSent 500 "Failed to load user."] } := by
  have hguard := callback_guard_false c s st hc hs hpend
  unfold routeTwitchAuthCallback
  rw [hguard]
  simp [hx, ht, hu]

theorem callback_success (cfg : ServerConfig) (oracle : TwitchOracle)
    (st : AuthState) (fs : FileSystem) (c s userId userName : String)
    (tok : AccessToken)
    (hc : c ≠ "") (hs : s ≠ "") (hpend : authStateHas st s = true)
    (hx : oracle.addUserForCode c = Except.ok userId)
    (ht : oracle.getAccessTokenForUser userId = some tok)
    (hu : oracle.getUserById userId = some userName) :
    routeTwitchAuthCallback cfg oracle st fs (some c) (some s) =
      { threw := false,
        response := some (200, "welcome " ++ userName ++ "!"),
        newState := authStateDel st s,
        fs := cacheTwitchAccessToken fs userId tok,
        events :=
          [Event.exchangeCall c, Event.getTokenCall userId,
           Event.getUserCall userId, Event.writeStart userId]
          ++ (if userName == cfg.botUser
              then [Event.createBotBegin userName] else [])
          ++ [Event.responseSent 200 ("welcome " ++ userName ++ "!"),
              Event.writeComplete userId] } := by
  have hguard := callback_guard_false c s st hc hs hpend
  unfold routeTwitchAuthCallback
  rw [hguard]
  simp [hx, ht, hu]

/-! File-system lemmas. -/

theorem fsRead_fsWrite_self (fs : FileSystem) (p : String) (v : RawContent) :
    fsRead (fsWrite fs p v) p = some v := by
  induction fs with
  | nil => simp [fsRead, fsWrite, List.find?]
  | cons e fs ih =>
    by_cases h : e.1 = p
    · simpa [fsWrite, List.filter_cons, h] using ih
    · have hne : (e.1 != p) = true := bne_iff_ne.mpr h
      have hne2 : (e.1 == p) = false := beq_eq_false_iff_ne.mpr h
      simp only [fsWrite, List.filter_cons, hne, if_pos] at *
      simp [fsRead, List.find?, hne2, ih]

theorem find?_filter_ne (fs : FileSystem) (p : String) :
    (fs.filter (fun e => e.1 != p)).find? (fun e => e.1 == p) = none := by
  induction fs with
  | nil => rfl
  | cons e fs ih =>
    by_cases h : e.1 = p
    · simp [List.filter_cons, h, ih]
    · have hne : (e.1 != p) = true := bne_iff_ne.mpr h
      have hne2 : (e.1 == p) = false := beq_eq_false_iff_ne.mpr h
      simp [List.filter_cons, hne, List.find?, hne2, ih]

theorem any_filter_ne (fs : FileSystem) (p : String) :
    (fs.filter (fun e => e.1 != p)).any (fun e => e.1 == p) = false := by
  induction fs with
  | nil => rfl
  | cons e fs ih =>
    by_cases h : e.1 = p
    · simp [List.filter_cons, h, ih]
    · have hne : (e.1 != p) = true := bne_iff_ne.mpr h
      have hne2 : (e.1 == p) = false := beq_eq_false_iff_ne.mpr h
      simp [List.filter_cons, hne, hne2, ih]

theorem countP_filter_ne (fs : FileSystem) (p : String) :
    (fs.filter (fun e => e.1 != p)).countP (fun e => e.1 == p) = 0 := by
  induction fs with
  | nil => rfl
  | cons e fs ih =>
    by_cases h : e.1 = p
    · simp [List.filter_cons, h, ih]
    · have hne : (e.1 != p) = true := bne_iff_ne.mpr h
      have hne2 : (e.1 == p) = false := beq_eq_false_iff_ne.mpr h
      simp [List.filter_cons, hne, List.countP_cons, hne2, ih]

theorem countP_fsWrite (fs : FileSystem) (p : String) (v : RawContent) :
    (fsWrite fs p v).countP (fun e => e.1 == p) = 1 := by
  simp [fsWrite, List.countP_append, countP_filter_ne, List.countP_cons]

theorem fsRm_fsWrite (fs : FileSystem) (p : String) (v : RawContent) :
    fsRm (fsWrite fs p v) p
      = Except.ok (fs.filter (fun e => e.1 != p)) := by
  have hany : (fsWrite fs p v).any (fun e => e.1 == p) = true := by
    simp [fsWrite, List.any_append]
  have hfilter : (fsWrite fs p v).filter (fun e => e.1 != p)
      = fs.filter (fun e => e.1 != p) := by
    simp [fsWrite, List.filter_append, List.filter_filter]
  simp [fsRm, hany, hfilter]

theorem fsRm_filter_ne (fs : FileSystem) (p : String) :
    fsRm (fs.filter (fun e => e.1 != p)) p = Except.error () := by
  simp [fsRm, any_filter_ne]

theorem fsRead_filter_ne (fs : FileSystem) (p : String) :
    fsRead (fs.filter (fun e => e.1 != p)) p = none := by
  simp [fsRead, find?_filter_ne]

/-! JSON round trip. -/

theorem decodeStrs_map_str (l : List String) :
    decodeStrs (l.map Json.str) = some l := by
  induction l with
  | nil => rfl
  | cons x xs ih => simp [decodeStrs, decodeStr, ih]

theorem decode_encode_accessToken (t : AccessToken) :
    decodeAccessToken (encodeAccessToken t) = some t := by
  rcases t with ⟨a, r, sc, e, o⟩
  cases r <;> cases e <;>
    simp [encodeAccessToken, decodeAccessToken, jsonLookup, List.find?,
      decodeStr, decodeOptStr, decodeOptNum, decodeNum, decodeStrs_map_str]

/-! splitDot lemmas, for the bootstrap file-name parsing. -/

theorem splitDot_ne_nil (l : List Char) : splitDot l ≠ [] := by
  cases l with
  | nil => simp [splitDot]
  | cons c cs =>
    by_cases h : c = '.'
    · simp [splitDot, h]
    · simp [splitDot, h]

theorem headD_cons_tail (l : List (List Char)) (h : l ≠ []) :
    l = l.headD [] :: l.tail := by
  cases l with
  | nil => exact absurd rfl h
  | cons x xs => rfl

theorem splitDot_append_no_dot (a b : List Char) (h : ∀ c ∈ a, c ≠ '.') :
    splitDot (a ++ b) = (a ++ (splitDot b).headD []) :: (splitDot b).tail := by
  induction a with
  | nil =>
    simpa using headD_cons_tail (splitDot b) (splitDot_ne_nil b)
  | cons c a ih =>
    have hc : c ≠ '.' := h c (List.mem_cons_self c a)
    have ih2 := ih (fun d hd => h d (List.mem_cons_of_mem c hd))
    simp [splitDot, hc, ih2]

theorem splitDot_head_append_dot (u w : List Char) :
    (splitDot (u ++ '.' :: w)).headD [] = u.takeWhile (fun c => c ≠ '.') := by
  induction u with
  | nil => simp [splitDot]
  | cons c u ih =>
    by_cases h : c = '.'
    · simp [splitDot, h, List.takeWhile]
    · simp [splitDot, h, List.takeWhile]
      simpa using ih

theorem data_append (s t : String) : (s ++ t).data = s.data ++ t.data := rfl

theorem cacheFileName_data (u : String) :
    (cacheFileName u).data
      = ['t', 'w', 'i', 't', 'c', 'h'] ++ '.' :: (u.data ++ '.' :: ['j', 's', 'o', 'n']) := by
  show ("twitch." ++ u ++ ".json").data = _
  rw [data_append, data_append]
  show ['t', 'w', 'i', 't', 'c', 'h', '.'] ++ u.data ++ ['.', 'j', 's', 'o', 'n'] = _
  simp

theorem extractUserId_cacheFileName (u : String) :
    extractUserId (cacheFileName u)
      = String.mk (u.data.takeWhile (fun c => c ≠ '.')) := by
  unfold extractUserId
  rw [cacheFileName_data]
  rw [splitDot_append_no_dot _ _ (by decide)]
  show String.mk ((splitDot ('.' :: (u.data ++ '.' :: ['j', 's', 'o', 'n']))).tail.getD 0 []) = _
  rw [show splitDot ('.' :: (u.data ++ '.' :: ['j', 's', 'o', 'n']))
      = [] :: splitDot (u.data ++ '.' :: ['j', 's', 'o', 'n']) from by simp [splitDot]]
  show String.mk ((splitDot (u.data ++ '.' :: ['j', 's', 'o', 'n'])).getD 0 []) = _
  rw [show (splitDot (u.data ++ '.' :: ['j', 's', 'o', 'n'])).getD 0 []
      = (splitDot (u.data ++ '.' :: ['j', 's', 'o', 'n'])).headD [] from by
    cases hsd : splitDot (u.data ++ '.' :: ['j', 's', 'o', 'n']) with
    | nil => exact absurd hsd (splitDot_ne_nil _)
    | cons x xs => rfl]
  rw [splitDot_head_append_dot]

theorem extractUserId_eq_self_iff (u : String) :
    extractUserId (cacheFileName u) = u ↔ ∀ c ∈ u.data, c ≠ '.' := by
  rw [extractUserId_cacheFileName]
  constructor
  · intro h c hc hdot
    have hdata : u.data.takeWhile (fun c => c ≠ '.') = u.data := congrArg String.data h
    have := List.takeWhile_eq_self_iff.mp hdata c hc
    simp [hdot] at this
  · intro h
    have hdata : u.data.takeWhile (fun c => c ≠ '.') = u.data :=
      List.takeWhile_eq_self_iff.mpr (fun c hc => by simpa using h c hc)
    show String.mk _ = u
    rw [hdata]

/-! Bootstrap loop lemmas. -/

theorem loadOne_falsy (cfg : ServerConfig) (oracle : TwitchOracle)
    (fn : String) (j : Json)
    (hfn : strStartsWith fn "twitch." = true) (hj : jsonTruthy j = false) :
    loadOneCachedFile cfg oracle (fn, RawContent.val j)
      = Except.ok [Event.uncacheCall (extractUserId fn)] := by
  simp [loadOneCachedFile, hfn, jsonParse, hj]

theorem loadOne_invalid (cfg : ServerConfig) (oracle : TwitchOracle)
    (fn : String) (hfn : strStartsWith fn "twitch." = true) :
    loadOneCachedFile cfg oracle (fn, RawContent.invalid) = Except.error () := by
  simp [loadOneCachedFile, hfn, jsonParse]

theorem loadOne_skip (cfg : ServerConfig) (oracle : TwitchOracle)
    (fn : String) (raw : RawContent) (hfn : strStartsWith fn "twitch." = false) :
    loadOneCachedFile cfg oracle (fn, raw) = Except.ok [] := by
  simp [loadOneCachedFile, hfn]

theorem loadAll_falsy_step (cfg : ServerConfig) (oracle : TwitchOracle)
    (fn : String) (j : Json) (rest : List (String × RawContent))
    (hfn : strStartsWith fn "twitch." = true) (hj : jsonTruthy j = false) :
    loadCachedTwitchAccessTokens cfg oracle ((fn, RawContent.val j) :: rest)
      = (loadCachedTwitchAccessTokens cfg oracle rest).map
          (fun evs => Event.uncacheCall (extractUserId fn) :: evs) := by
  cases hrest : loadCachedTwitchAccessTokens cfg oracle rest <;>
    simp [loadCachedTwitchAccessTokens, loadOne_falsy cfg oracle fn j hfn hj,
      hrest, Except.map, Bind.bind, Except.bind, Pure.pure, Except.pure]

/-- C9: every GET /twitch/auth request answers 302 with a Location URL at
the external authorization endpoint carrying the configured client id, the
canonical callback address, the fixed scope list joined by spaces, and the
fresh nonce as the state parameter; the only side effect is registering
that nonce together with its expiry timer. -/
theorem C9_redirect_route (cfg : ServerConfig) (nonce : String) (st : AuthState) :
    routeRedirectTwitchAuth cfg nonce st =
      { status := 302,
        location :=
          { base := "https://id.twitch.tv/oauth2/authorize",
            params :=
              [("client_id", cfg.clientId),
               ("redirect_uri",
                 fullyQualifiedHostName cfg.hostName cfg.port
                   ++ "/twitch/auth-callback"),
               ("response_type", "code"),
               ("scope",
                 "chat:read chat:edit channel:read:redemptions channel:manage:redemptions moderator:read:followers"),
               ("state", nonce)] },
        newState := nonce :: st,
        scheduledExpiry := (nonce, DEFAULT_TWITCH_AUTH_TIMEOUT) } := rfl

/-- C7: the expiry timeout is five minutes; the expiry callback removes the
nonce, making any later callback with that state answer 400 without
touching the map; and an expiry firing when the nonce is already gone
leaves the map unchanged. -/
theorem C7_nonce_expiry (cfg : ServerConfig) (oracle : TwitchOracle)
    (st : AuthState) (fs : FileSystem) (s : String) (code : Option String) :
    DEFAULT_TWITCH_AUTH_TIMEOUT = 1000 * 60 * 5
    ∧ authStateHas (expireTwitchAuthState st s) s = false
    ∧ (routeTwitchAuthCallback cfg oracle (expireTwitchAuthState st s) fs
        code (some s)).response = some (400, "Invalid request.")
    ∧ (routeTwitchAuthCallback cfg oracle (expireTwitchAuthState st s) fs
        code (some s)).newState = expireTwitchAuthState st s
    ∧ (authStateHas st s = false → expireTwitchAuthState st s = st) := by
  have hex : authStateHas (expireTwitchAuthState st s) s = false := by
    by_cases h : authStateHas st s = true
    · simp [expireTwitchAuthState, h, authStateHas_del_self]
    · have h2 : authStateHas st s = false := by simpa using h
      simp [expireTwitchAuthState, h2]
  have hcb := callback_invalid cfg oracle (expireTwitchAuthState st s) fs
    code (some s) (Or.inr (Or.inr (by simpa using hex)))
  refine ⟨rfl, hex, ?_, ?_, ?_⟩
  · rw [hcb]
  · rw [hcb]
  · intro h
    simp [expireTwitchAuthState, h]

/-- C7 witness: the theorem evaluated on a one-nonce map and on the empty
map. -/
theorem C7_witness :
    DEFAULT_TWITCH_AUTH_TIMEOUT = 1000 * 60 * 5
    ∧ authStateHas (expireTwitchAuthState ["s1"] "s1") "s1" = false
    ∧ (routeTwitchAuthCallback demoCfg demoOracle
        (expireTwitchAuthState ["s1"] "s1") [] (some "abc") (some "s1")).response
        = some (400, "Invalid request.")
    ∧ (routeTwitchAuthCallback demoCfg demoOracle
        (expireTwitchAuthState ["s1"] "s1") [] (some "abc") (some "s1")).newState
        = expireTwitchAuthState ["s1"] "s1"
    ∧ expireTwitchAuthState [] "s1" = [] := by
  have h := C7_nonce_expiry demoCfg demoOracle ["s1"] [] "s1" (some "abc")
  have h2 := C7_nonce_expiry demoCfg demoOracle [] [] "s1" (some "abc")
  exact ⟨h.1, h.2.1, h.2.2.1, h.2.2.2.1, h2.2.2.2.2 (by decide)⟩

/-- C6: a callback without code, without state, or whose state is not a
pending nonce answers 400 and does nothing else: the nonce map and the
file system are unchanged and no external call or other side effect
happens. -/
theorem C6_invalid_request_short_circuit (cfg : ServerConfig)
    (oracle : TwitchOracle) (st : AuthState) (fs : FileSystem)
    (code state : Option String)
    (h : paramTruthy code = false ∨ paramTruthy state = false
      ∨ authStateHas st (state.getD "") = false) :
    routeTwitchAuthCallback cfg oracle st fs code state =
      { threw := false, response := some (400, "Invalid request."),
        newState := st, fs := fs, events := [] } :=
  callback_invalid cfg oracle st fs code state h

/-- C6 witness: a callback with a missing code parameter. -/
theorem C6_witness :
    routeTwitchAuthCallback demoCfg demoOracle ["s1"] [] none (some "s1") =
      { threw := false, response := some (400, "Invalid request."),
        newState := ["s1"], fs := [], events := [] } :=
  C6_invalid_request_short_circuit demoCfg demoOracle ["s1"] [] none
    (some "s1") (Or.inl (by decide))

/-- C1: a pending nonce validates at most once.  The first callback
carrying it passes the check and deletes the key (whatever the external
calls then do), and any callback carrying that state once it is no longer
pending answers 400 and leaves the map unchanged, so every later callback
with the same state is rejected. -/
theorem C1_nonce_single_use (cfg : ServerConfig) (oracle : TwitchOracle)
    (st : AuthState) (fs : FileSystem) (c s : String)
    (hc : c ≠ "") (hs : s ≠ "") (hpend : authStateHas st s = true) :
    (routeTwitchAuthCallback cfg oracle st fs (some c) (some s)).response
        ≠ some (400, "Invalid request.")
    ∧ (routeTwitchAuthCallback cfg oracle st fs (some c) (some s)).newState
        = authStateDel st s
    ∧ authStateHas
        (routeTwitchAuthCallback cfg oracle st fs (some c) (some s)).newState s
        = false
    ∧ ∀ (cfg2 : ServerConfig) (oracle2 : TwitchOracle) (st2 : AuthState)
        (fs2 : FileSystem) (code2 : Option String),
        authStateHas st2 s = false →
          (routeTwitchAuthCallback cfg2 oracle2 st2 fs2 code2 (some s)).response
              = some (400, "Invalid request.")
          ∧ (routeTwitchAuthCallback cfg2 oracle2 st2 fs2 code2 (some s)).newState
              = st2 := by
  have houtcome :
      (routeTwitchAuthCallback cfg oracle st fs (some c) (some s)).newState
          = authStateDel st s
      ∧ (routeTwitchAuthCallback cfg oracle st fs (some c) (some s)).response
          ≠ some (400, "Invalid request.") := by
    cases hx : oracle.addUserForCode c with
    | error e =>
      cases e
      rw [callback_throw cfg oracle st fs c s hc hs hpend hx]
      exact ⟨rfl, by simp⟩
    | ok userId =>
      cases ht : oracle.getAccessTokenForUser userId with
      | none =>
        rw [callback_no_token cfg oracle st fs c s userId hc hs hpend hx ht]
        exact ⟨rfl, by simp⟩
      | some tok =>
        cases hu : oracle.getUserById userId with
        | none =>
          rw [callback_no_user cfg oracle st fs c s userId tok hc hs hpend hx ht hu]
          exact ⟨rfl, by simp⟩
        | some userName =>
          rw [callback_success cfg oracle st fs c s userId userName tok hc hs hpend hx ht hu]
          exact ⟨rfl, by simp⟩
  refine ⟨houtcome.2, houtcome.1, ?_, ?_⟩
  · rw [houtcome.1]
    exact authStateHas_del_self st s
  · intro cfg2 oracle2 st2 fs2 code2 h2
    rw [callback_invalid cfg2 oracle2 st2 fs2 code2 (some s)
      (Or.inr (Or.inr (by simpa using h2)))]
    exact ⟨rfl, rfl⟩

/-- C1 witness: an issued nonce is consumed by the first callback and a
second identical callback is rejected with 400. -/
theorem C1_witness :
    (routeTwitchAuthCallback demoCfg demoOracle ["s1"] [] (some "abc")
        (some "s1")).response ≠ some (400, "Invalid request.")
    ∧ (routeTwitchAuthCallback demoCfg demoOracle ["s1"] [] (some "abc")
        (some "s1")).newState = authStateDel ["s1"] "s1"
    ∧ (routeTwitchAuthCallback demoCfg demoOracle
        (routeTwitchAuthCallback demoCfg demoOracle ["s1"] [] (some "abc")
          (some "s1")).newState
        [] (some "abc") (some "s1")).response = some (400, "Invalid request.") := by
  have h := C1_nonce_single_use demoCfg demoOracle ["s1"] [] "abc" "s1"
    (by decide) (by decide) (by decide)
  exact ⟨h.1, h.2.1,
    (h.2.2.2 demoCfg demoOracle _ [] (some "abc") h.2.2.1).1⟩

/-- C3 counterexample: with a code exchange that throws and an otherwise
valid request, the handler sends no response at all (the rejection escapes
it), rather than the 500 response the claim requires. -/
theorem C3_counterexample :
    (routeTwitchAuthCallback demoCfg throwOracle ["s1"] [] (some "abc")
        (some "s1")).response = none
    ∧ (routeTwitchAuthCallback demoCfg throwOracle ["s1"] [] (some "abc")
        (some "s1")).threw = true := ⟨rfl, rfl⟩

/-- C3 amended: a throwing code exchange escapes the handler with no
response; a missing access token after the exchange and a failed user
lookup each answer 500 with a plain-text error body. -/
theorem C3_downstream_failure_responses (cfg : ServerConfig)
    (oracle : TwitchOracle) (st : AuthState) (fs : FileSystem)
    (c s userId : String) (tok : AccessToken)
    (hc : c ≠ "") (hs : s ≠ "") (hpend : authStateHas st s = true) :
    (oracle.addUserForCode c = Except.error () →
      (routeTwitchAuthCallback cfg oracle st fs (some c) (some s)).threw = true
      ∧ (routeTwitchAuthCallback cfg oracle st fs (some c) (some s)).response
          = none)
    ∧ (oracle.addUserForCode c = Except.ok userId →
       oracle.getAccessTokenForUser userId = none →
        (routeTwitchAuthCallback cfg oracle st fs (some c) (some s)).response
          = some (500, "Failed to get access token."))
    ∧ (oracle.addUserForCode c = Except.ok userId →
       oracle.getAccessTokenForUser userId = some tok →
       oracle.getUserById userId = none →
        (routeTwitchAuthCallback cfg oracle st fs (some c) (some s)).response
          = some (500, "Failed to load user.")) := by
  refine ⟨fun hx => ?_, fun hx ht => ?_, fun hx ht hu => ?_⟩
  · rw [callback_throw cfg oracle st fs c s hc hs hpend hx]
    exact ⟨rfl, rfl⟩
  · rw [callback_no_token cfg oracle st fs c s userId hc hs hpend hx ht]
  · rw [callback_no_user cfg oracle st fs c s userId tok hc hs hpend hx ht hu]

/-- C3 witness: the three downstream failure shapes evaluated on concrete
oracles. -/
theorem C3_witness :
    ((routeTwitchAuthCallback demoCfg throwOracle ["s1"] [] (some "abc")
        (some "s1")).threw = true
      ∧ (routeTwitchAuthCallback demoCfg throwOracle ["s1"] [] (some "abc")
        (some "s1")).response = none)
    ∧ (routeTwitchAuthCallback demoCfg noTokenOracle ["s1"] [] (some "abc")
        (some "s1")).response = some (500, "Failed to get access token.")
    ∧ (routeTwitchAuthCallback demoCfg noUserOracle ["s1"] [] (some "abc")
        (some "s1")).response = some (500, "Failed to load user.") := by
  have h1 := C3_downstream_failure_responses demoCfg throwOracle ["s1"] []
    "abc" "s1" "42" demoToken (by decide) (by decide) (by decide)
  have h2 := C3_downstream_failure_responses demoCfg noTokenOracle ["s1"] []
    "abc" "s1" "42" demoToken (by decide) (by decide) (by decide)
  have h3 := C3_downstream_failure_responses demoCfg noUserOracle ["s1"] []
    "abc" "s1" "42" demoToken (by decide) (by decide) (by decide)
  exact ⟨h1.1 rfl, h2.2.1 rfl rfl, h3.2.2 rfl rfl rfl⟩

/-- C4 counterexample: in a concrete successful bot-matching run, the bot
attachment begins (index 4 of the trace) before the cache write completes
(index 6), so the persistence side effect does not complete before the bot
attachment begins. -/
theorem C4_counterexample :
    (routeTwitchAuthCallback demoCfg demoOracle ["s1"] [] (some "abc")
        (some "s1")).events.indexOf (Event.createBotBegin "papakumo")
      < (routeTwitchAuthCallback demoCfg demoOracle ["s1"] [] (some "abc")
        (some "s1")).events.indexOf (Event.writeComplete "42") := by
  decide

/-- C4 amended: in every successful bot-matching run the cache write is
initiated before the bot attachment begins, but its completion is only
delivered after the synchronous segment of the handler (and so after the
bot attachment has begun): the trace is exactly exchange, token fetch,
user fetch, write start, bot begin, response, write completion. -/
theorem C4_write_initiated_not_completed_before_bot (cfg : ServerConfig)
    (oracle : TwitchOracle) (st : AuthState) (fs : FileSystem)
    (c s userId userName : String) (tok : AccessToken)
    (hc : c ≠ "") (hs : s ≠ "") (hpend : authStateHas st s = true)
    (hx : oracle.addUserForCode c = Except.ok userId)
    (ht : oracle.getAccessTokenForUser userId = some tok)
    (hu : oracle.getUserById userId = some userName)
    (hbot : userName = cfg.botUser) :
    (routeTwitchAuthCallback cfg oracle st fs (some c) (some s)).events =
      [Event.exchangeCall c, Event.getTokenCall userId,
       Event.getUserCall userId, Event.writeStart userId,
       Event.createBotBegin userName,
       Event.responseSent 200 ("welcome " ++ userName ++ "!"),
       Event.writeComplete userId] := by
  rw [callback_success cfg oracle st fs c s userId userName tok hc hs hpend hx ht hu]
  simp [hbot]

/-- C4 witness: the amended trace evaluated on a concrete successful run. -/
theorem C4_witness :
    (routeTwitchAuthCallback demoCfg demoOracle ["s1"] [] (some "abc")
        (some "s1")).events =
      [Event.exchangeCall "abc", Event.getTokenCall "42",
       Event.getUserCall "42", Event.writeStart "42",
       Event.createBotBegin "papakumo",
       Event.responseSent 200 ("welcome " ++ "papakumo" ++ "!"),
       Event.writeComplete "42"] :=
  C4_write_initiated_not_completed_before_bot demoCfg demoOracle ["s1"] []
    "abc" "s1" "42" "papakumo" demoToken (by decide) (by decide) (by decide)
    rfl rfl rfl rfl

/-- C5 counterexample: removing a credential that was never persisted
throws (fs.rm without force rejects with ENOENT on a missing path), so
remove is not idempotent and a call on an absent entry is an error. -/
theorem C5_counterexample :
    uncacheTwitchAccessToken [] "alice" = Except.error () := rfl

/-- C5 amended: removing a persisted credential succeeds and a load
afterwards returns absent, but remove is not idempotent: a second
immediate remove (or any remove of an absent credential) throws. -/
theorem C5_remove_then_absent (fs : FileSystem) (u : String) (c : AccessToken) :
    uncacheTwitchAccessToken (cacheTwitchAccessToken fs u c) u
      = Except.ok (fs.filter (fun e => e.1 != cacheFilePath u))
    ∧ loadCachedToken (fs.filter (fun e => e.1 != cacheFilePath u)) u = none
    ∧ uncacheTwitchAccessToken (fs.filter (fun e => e.1 != cacheFilePath u)) u
      = Except.error () := by
  refine ⟨fsRm_fsWrite fs (cacheFilePath u) _, ?_, fsRm_filter_ne fs (cacheFilePath u)⟩
  simp [loadCachedToken, fsRead_filter_ne]

/-- C8: a saved credential read back through the bootstrap path (file read
plus JSON.parse) is the credential that was saved; the store keeps exactly
one entry per user id, the last saved value wins on overwrite, and
distinct user ids use distinct cache paths. -/
theorem C8_round_trip_and_overwrite (fs : FileSystem) (u v : String)
    (c c1 c2 : AccessToken) :
    loadCachedToken (cacheTwitchAccessToken fs u c) u = some c
    ∧ loadCachedToken
        (cacheTwitchAccessToken (cacheTwitchAccessToken fs u c1) u c2) u
        = some c2
    ∧ (cacheTwitchAccessToken fs u c).countP
        (fun e => e.1 == cacheFilePath u) = 1
    ∧ (cacheFilePath u = cacheFilePath v → u = v) := by
  refine ⟨?_, ?_, countP_fsWrite fs (cacheFilePath u) _, ?_⟩
  · simp [loadCachedToken, cacheTwitchAccessToken, fsRead_fsWrite_self,
      jsonParse, decode_encode_accessToken]
  · simp [loadCachedToken, cacheTwitchAccessToken, fsRead_fsWrite_self,
      jsonParse, decode_encode_accessToken]
  · intro h
    have hdata := congrArg String.data h
    simp only [cacheFilePath, cacheFileName, data_append, List.append_assoc]
      at hdata
    exact String.ext
      (List.append_cancel_right
        (List.append_cancel_left (List.append_cancel_left hdata)))

/-- C8 witness: round trip, overwrite and entry count evaluated on a
concrete store, with the path-injectivity hypothesis discharged. -/
theorem C8_witness :
    loadCachedToken (cacheTwitchAccessToken [] "alice" demoToken) "alice"
      = some demoToken
    ∧ loadCachedToken
        (cacheTwitchAccessToken (cacheTwitchAccessToken [] "alice" demoToken)
          "alice"
          { demoToken with accessToken := "at2" }) "alice"
        = some { demoToken with accessToken := "at2" }
    ∧ (cacheTwitchAccessToken [] "alice" demoToken).countP
        (fun e => e.1 == cacheFilePath "alice") = 1
    ∧ "alice" = "alice" := by
  have h := C8_round_trip_and_overwrite [] "alice" "alice" demoToken demoToken
    { demoToken with accessToken := "at2" }
  exact ⟨h.1, h.2.1, h.2.2.1, h.2.2.2 rfl⟩

/-- C2 counterexample: a cache file whose content is not valid JSON makes
the bootstrap load throw (JSON.parse throws and nothing catches it), the
file is not removed, and the remaining entries are not processed — the
claim that loadAll completes without throwing fails. -/
theorem C2_counterexample :
    loadCachedTwitchAccessTokens demoCfg demoOracle
      [("twitch.alice.json", RawContent.invalid),
       ("twitch.bob.json", RawContent.val (Json.bool true))]
      = Except.error () := rfl

/-- C2 amended: a cache file whose content is valid JSON denoting a falsy
value is self-healed: the load removes its file, registers nothing for it
and continues with the remaining entries; but a cache file whose content
throws on JSON.parse aborts the whole load with that exception. -/
theorem C2_corrupt_cache_behavior (cfg : ServerConfig) (oracle : TwitchOracle)
    (fn : String) (j : Json) (rest : List (String × RawContent))
    (hfn : strStartsWith fn "twitch." = true) (hj : jsonTruthy j = false) :
    loadCachedTwitchAccessTokens cfg oracle ((fn, RawContent.val j) :: rest)
      = (loadCachedTwitchAccessTokens cfg oracle rest).map
          (fun evs => Event.uncacheCall (extractUserId fn) :: evs)
    ∧ loadCachedTwitchAccessTokens cfg oracle ((fn, RawContent.invalid) :: rest)
      = Except.error () := by
  refine ⟨loadAll_falsy_step cfg oracle fn j rest hfn hj, ?_⟩
  simp [loadCachedTwitchAccessTokens, loadOne_invalid cfg oracle fn hfn,
    Bind.bind, Except.bind]

/-- C2 witness: a null-content cache file followed by a good one: the load
succeeds, removing the corrupt file and processing the rest. -/
theorem C2_witness :
    loadCachedTwitchAccessTokens demoCfg demoOracle
      [("twitch.alice.json", RawContent.val Json.null)]
      = (loadCachedTwitchAccessTokens demoCfg demoOracle []).map
          (fun evs => Event.uncacheCall (extractUserId "twitch.alice.json") :: evs)
    ∧ loadCachedTwitchAccessTokens demoCfg demoOracle
        [("twitch.alice.json", RawContent.invalid)]
      = Except.error () :=
  C2_corrupt_cache_behavior demoCfg demoOracle "twitch.alice.json" Json.null
    [] (by decide) (by decide)

/-- C10: the user id the bootstrap re-registers for a cache file named by
the save path is the file name segment between the leading twitch dot
part and the next dot, that is the saved user id truncated at its first
dot; it equals the saved user id exactly when the user id has no dot; and
a file whose name does not start with the twitch dot part is skipped with
no effect. -/
theorem C10_bootstrap_file_name_parsing (cfg : ServerConfig)
    (oracle : TwitchOracle) (u fn : String) (raw : RawContent) :
    extractUserId (cacheFileName u)
      = String.mk (u.data.takeWhile (fun c => c ≠ '.'))
    ∧ (extractUserId (cacheFileName u) = u ↔ ∀ c ∈ u.data, c ≠ '.')
    ∧ (strStartsWith fn "twitch." = false →
        loadOneCachedFile cfg oracle (fn, raw) = Except.ok []) :=
  ⟨extractUserId_cacheFileName u, extractUserId_eq_self_iff u,
    fun h => loadOne_skip cfg oracle fn raw h⟩

/-- C10 witness: a dotted user id is truncated at its first dot, and a
foreign file is skipped. -/
theorem C10_witness :
    extractUserId (cacheFileName "alice.b")
      = String.mk ("alice.b".data.takeWhile (fun c => c ≠ '.'))
    ∧ extractUserId (cacheFileName "alice.b") = "alice"
    ∧ loadOneCachedFile demoCfg demoOracle ("notes.txt", RawContent.invalid)
      = Except.ok [] := by
  have h := C10_bootstrap_file_name_parsing demoCfg demoOracle "alice.b"
    "notes.txt" RawContent.invalid
  refine ⟨h.1, ?_, h.2.2 (by decide)⟩
  rw [h.1]
  decide
